import Mathlib

/-!
Verification of the unified-health-record access-ledger subsystem.

This file shallowly embeds the patients app (models.py, sevices.py,
schemas.py), the claims app OTP model (claims/models.py) and the OTP
utility (core/utils/otp.py), and proves the specification claims about
them.

Modelling conventions:
  - Django rows become Lean structures; primary keys and foreign keys are
    Nat ids; timestamps are Nat (seconds).
  - The database is a `DB` structure of lists of rows.  Reads (`find?`,
    `filter`) mirror the querysets used by the service functions.
  - Service functions run inside `transaction.atomic`: a raised domain
    exception rolls the transaction back, so each service function is a
    function returning `Except PatientError (DB × row)`; an `.error`
    result carries no state change, exactly like a rolled-back
    transaction.
  - Randomness (MRN generation, OTP digits) is passed in as an argument.
-/

set_option maxRecDepth 100000

namespace UHR

/-! ## Enumerations (patients/models.py) -/

/-- `AccessRole` — the role a user holds against a patient profile. -/
inductive AccessRole where
  | primary
  | full_delegate
  | caregiver
  | viewer
deriving DecidableEq, Repr

/-- `ClaimMethod` — how a PatientUserAccess record was established. -/
inductive ClaimMethod where
  | national_id_match
  | email_otp
  | support_manual
  | delegate_transfer
  | system_created
deriving DecidableEq, Repr

/-- `TrustLevel` — confidence level of the claim that established an access record. -/
inductive TrustLevel where
  | verified_identity
  | email_verified
  | support_verified
  | delegate_granted
  | system
deriving DecidableEq, Repr

/-! ## Rows -/

/-- A row of the auth user table (users app); only the fields the patients
service layer reads: `User.objects.get(email=..., is_active=True)`. -/
structure UserAccount where
  id : Nat
  email : String
  is_active : Bool
deriving DecidableEq, Repr

/-- `Patient` (patients/models.py).  Demographic fields that no claim
mentions (gender, phone, address, blood_group, nationality) are omitted;
the claim-state, deceased and soft-delete fields are kept in full. -/
structure Patient where
  id : Nat
  mrn : Option String
  first_name : String
  last_name : String
  email : Option String
  is_deceased : Bool
  deceased_date : Option Nat
  is_claimed : Bool
  claimed_at : Option Nat
  transfer_eligible_at : Option Nat
  deleted_at : Option Nat
deriving DecidableEq, Repr

/-- `Patient.is_active` — False if the profile has been soft-deleted / retracted. -/
def Patient.is_active (p : Patient) : Bool :=
  p.deleted_at.isNone

/-- `PatientUserAccess` (patients/models.py).  The claim-evidence FKs
(claim_identity, claim_otp, claim_ticket) are omitted: no claim in scope
reads them. -/
structure PatientUserAccess where
  id : Nat
  user : Nat
  patient : Nat
  role : AccessRole
  is_active : Bool
  claim_method : ClaimMethod
  trust_level : TrustLevel
  granted_by : Option Nat
  granted_at : Nat
  revoked_at : Option Nat
  revoked_by : Option Nat
  revocation_reason : Option String
  notes : Option String
deriving DecidableEq, Repr

/-- `PatientUserAccess.is_primary`. -/
def PatientUserAccess.is_primary (a : PatientUserAccess) : Bool :=
  a.role = AccessRole.primary && a.is_active

/-- `PatientUserAccess.can_manage_access` — whether this record grants
authority to grant / revoke other users' access to this patient profile.
Django evaluates `self.patient.is_claimed` through the FK; here the
patient row is passed explicitly. -/
def PatientUserAccess.can_manage_access (a : PatientUserAccess) (p : Patient) : Bool :=
  if a.role = AccessRole.primary then true
  else if a.role = AccessRole.full_delegate then !p.is_claimed
  else false

/-- `PatientUserAccess.can_write` — whether this record grants write access. -/
def PatientUserAccess.can_write (a : PatientUserAccess) : Bool :=
  a.is_active &&
    (a.role = AccessRole.primary || a.role = AccessRole.full_delegate ||
      a.role = AccessRole.caregiver)

/-- `PatientUserAccess.can_read`. -/
def PatientUserAccess.can_read (a : PatientUserAccess) : Bool :=
  a.is_active

/-! ## Errors (patients/exceptions.py; Django ValidationError) -/

/-- Domain errors raised by the patients service layer.  The constructors
are the `PatientError` subclasses of patients/exceptions.py, plus
Django's `ValidationError` (which the service layer also raises for
input-level failures); `ValidationError` carries the field name it is
keyed on. -/
inductive PatientError where
  | PatientNotFound
  | PatientRetracted
  | AccessDenied
  | ProfileAlreadyClaimed
  | OrphanProtectionError
  | DuplicateAccessError
  | ValidationError (field : String)
deriving DecidableEq, Repr

/-! ## The database -/

/-- The database state visible to the patients service layer. -/
structure DB where
  users : List UserAccount
  patients : List Patient
  accesses : List PatientUserAccess
deriving DecidableEq, Repr

/-- `Patient.objects.get(pk=patient_id)` as a partial lookup. -/
def DB.findPatient (db : DB) (pid : Nat) : Option Patient :=
  db.patients.find? (fun p => p.id == pid)

/-- `_get_active_access` (sevices.py): fetch the requesting user's active
access joined with its patient.  `PatientUserAccess.objects.get(...)` is
modelled as `find?`; the DB unique constraint guarantees at most one
active row per (user, patient).  The FK always resolves in Django, so the
inner `none` branch is unreachable on well-formed states. -/
def get_active_access (db : DB) (user pid : Nat) :
    Except PatientError (PatientUserAccess × Patient) :=
  match db.accesses.find? (fun a => a.user == user && a.patient == pid && a.is_active) with
  | none => .error .PatientNotFound
  | some a =>
    match db.findPatient a.patient with
    | none => .error .PatientNotFound
    | some p =>
      if p.is_active then .ok (a, p) else .error .PatientRetracted

/-- `_active_holder_count` (sevices.py): count of currently active access
records for a patient profile. -/
def active_holder_count (db : DB) (pid : Nat) : Nat :=
  (db.accesses.filter (fun a => a.patient == pid && a.is_active)).length

/-! ## Input schemas (patients/schemas.py) -/

/-- `CreatePatientSchema` — fields `create_patient` consumes (validated
demographics whose validators no claim mentions are omitted). -/
structure CreatePatientSchema where
  first_name : String
  last_name : String
  email : Option String
  is_deceased : Bool
  deceased_date : Option Nat
  is_dependent : Bool
  transfer_eligible_at : Option Nat
deriving DecidableEq, Repr

/-- `GrantAccessSchema` — input for granting access. -/
structure GrantAccessSchema where
  user_email : String
  role : AccessRole
  notes : Option String
deriving DecidableEq, Repr

/-- The roles `GrantAccessSchema.validate_role` accepts: primary cannot be
granted manually — only via the claim system. -/
def grantable_roles : List AccessRole :=
  [AccessRole.caregiver, AccessRole.viewer, AccessRole.full_delegate]

/-- `GrantAccessSchema.validate_role` — rejects any role outside
`grantable_roles` with a field-addressed validation error. -/
def validate_role (v : AccessRole) : Except PatientError AccessRole :=
  if v ∈ grantable_roles then .ok v else .error (.ValidationError "role")

/-! ## Service operations (patients/sevices.py) -/

/-- `create_patient` — create a new patient profile and the creator's
access record.  `mrn` stands for the randomly generated MRN (the retry
loop of `_generate_mrn` is a source of randomness, passed in here);
`newPid`/`newAid` are the fresh UUID primary keys; `now` is
`timezone.now()`. -/
def create_patient (db : DB) (user : Nat) (data : CreatePatientSchema)
    (mrn : String) (newPid newAid : Nat) (now : Nat) :
    DB × Patient × PatientUserAccess :=
  let is_claimed := !data.is_dependent
  let claimed_at := if is_claimed then some now else none
  let patient : Patient :=
    { id := newPid
      mrn := some mrn
      first_name := data.first_name
      last_name := data.last_name
      email := data.email
      is_deceased := data.is_deceased
      deceased_date := data.deceased_date
      is_claimed := is_claimed
      claimed_at := claimed_at
      transfer_eligible_at := data.transfer_eligible_at
      deleted_at := none }
  let role := if data.is_dependent then AccessRole.full_delegate else AccessRole.primary
  let trust_level := if data.is_dependent then TrustLevel.delegate_granted else TrustLevel.system
  let access : PatientUserAccess :=
    { id := newAid
      user := user
      patient := newPid
      role := role
      is_active := true
      claim_method := ClaimMethod.system_created
      trust_level := trust_level
      granted_by := none
      granted_at := now
      revoked_at := none
      revoked_by := none
      revocation_reason := none
      notes := none }
  ({ db with
      patients := db.patients ++ [patient]
      accesses := db.accesses ++ [access] },
   patient, access)

/-- `grant_access` — grant another user access to a patient profile.
Mirrors the service function line by line: actor access, manage check,
target resolution by email (raising `ValidationError` keyed on
`user_email` when no active user matches), self-grant check, duplicate
check, insert. -/
def grant_access (db : DB) (user pid : Nat) (data : GrantAccessSchema)
    (newAid : Nat) (now : Nat) :
    Except PatientError (DB × PatientUserAccess) :=
  match get_active_access db user pid with
  | .error e => .error e
  | .ok (access, patient) =>
    if !(access.can_manage_access patient) then .error .AccessDenied
    else
      match db.users.find? (fun u => u.email == data.user_email && u.is_active) with
      | none => .error (.ValidationError "user_email")
      | some target =>
        if target.id = user then .error (.ValidationError "user_email")
        else
          match db.accesses.find?
              (fun a => a.user == target.id && a.patient == pid && a.is_active) with
          | some _ => .error .DuplicateAccessError
          | none =>
            let new_access : PatientUserAccess :=
              { id := newAid
                user := target.id
                patient := pid
                role := data.role
                is_active := true
                claim_method := ClaimMethod.system_created
                trust_level := TrustLevel.delegate_granted
                granted_by := some user
                granted_at := now
                revoked_at := none
                revoked_by := none
                revocation_reason := none
                notes := data.notes }
            .ok ({ db with accesses := db.accesses ++ [new_access] }, new_access)

/-- The grant endpoint (patients/api.py): the request body is parsed
through `GrantAccessSchema`, so `validate_role` runs before the service
function. -/
def grant_access_api (db : DB) (user pid : Nat) (data : GrantAccessSchema)
    (newAid : Nat) (now : Nat) :
    Except PatientError (DB × PatientUserAccess) :=
  match validate_role data.role with
  | .error e => .error e
  | .ok _ => grant_access db user pid data newAid now

/-- `revoke_access` — revoke another user's access.  The
`select_for_update()` on the patient row (acquired just before the
holder count) serialises concurrent revocations; its effect on
interleavings is modelled separately by the race machine below. -/
def revoke_access (db : DB) (user pid access_id : Nat) (reason : String)
    (now : Nat) : Except PatientError (DB × PatientUserAccess) :=
  match get_active_access db user pid with
  | .error e => .error e
  | .ok (actor_access, patient) =>
    if !(actor_access.can_manage_access patient) then .error .AccessDenied
    else
      match db.accesses.find?
          (fun a => a.id == access_id && a.patient == pid && a.is_active) with
      | none => .error .PatientNotFound
      | some target =>
        if target.role = AccessRole.primary then .error .AccessDenied
        else if target.user = user then .error .AccessDenied
        else if active_holder_count db pid ≤ 1 then .error .OrphanProtectionError
        else
          let target' : PatientUserAccess :=
            { target with
                is_active := false
                revoked_at := some now
                revoked_by := some user
                revocation_reason := some reason }
          .ok ({ db with
                  accesses := db.accesses.map
                    (fun a => if a.id = target.id then target' else a) },
               target')

/-- `self_exit` — a user removes their own access.  Note the code fetches
the access row directly (no retraction check), locks the patient row,
rejects a primary holder of a claimed profile, then applies orphan
protection. -/
def self_exit (db : DB) (user pid : Nat) (reason : Option String)
    (now : Nat) : Except PatientError (DB × PatientUserAccess) :=
  match db.accesses.find?
      (fun a => a.user == user && a.patient == pid && a.is_active) with
  | none => .error .PatientNotFound
  | some access =>
    match db.findPatient pid with
    | none => .error .PatientNotFound
    | some patient =>
      if access.role = AccessRole.primary && patient.is_claimed then
        .error .AccessDenied
      else if active_holder_count db pid ≤ 1 then .error .OrphanProtectionError
      else
        let access' : PatientUserAccess :=
          { access with
              is_active := false
              revoked_at := some now
              revoked_by := some user
              revocation_reason := some (reason.getD "Self-exit.") }
        .ok ({ db with
                accesses := db.accesses.map
                  (fun a => if a.id = access.id then access' else a) },
             access')

/-! ## Operations as state transformers -/

/-- One mutating call into the patients service layer. -/
inductive Op where
  | createOp (user : Nat) (data : CreatePatientSchema) (mrn : String) (newPid newAid : Nat)
  | grantOp (user pid : Nat) (data : GrantAccessSchema) (newAid : Nat)
  | revokeOp (user pid aid : Nat) (reason : String)
  | selfExitOp (user pid : Nat) (reason : Option String)

/-- The database after one service call: a raised domain error rolls the
transaction back, leaving the state unchanged. -/
def applyOp (db : DB) (op : Op) (now : Nat) : DB :=
  match op with
  | .createOp u d mrn npid naid => (create_patient db u d mrn npid naid now).1
  | .grantOp u pid d naid =>
    match grant_access db u pid d naid now with
    | .ok (db', _) => db'
    | .error _ => db
  | .revokeOp u pid aid r =>
    match revoke_access db u pid aid r now with
    | .ok (db', _) => db'
    | .error _ => db
  | .selfExitOp u pid r =>
    match self_exit db u pid r now with
    | .ok (db', _) => db'
    | .error _ => db

/-- The database after a call to the grant endpoint (schema validation
included). -/
def applyGrantApi (db : DB) (user pid : Nat) (data : GrantAccessSchema)
    (newAid : Nat) (now : Nat) : DB :=
  match grant_access_api db user pid data newAid now with
  | .ok (db', _) => db'
  | .error _ => db

/-! ## Storage-layer constraints (PatientUserAccess.Meta.constraints)

Django declares these as database constraints: every committed write is
checked by the storage engine, not by application code. -/

/-- Boolean pairwise check over the distinct positions of a list. -/
def pairwiseOK (R : α → α → Bool) : List α → Bool
  | [] => true
  | a :: l => l.all (fun b => R a b) && pairwiseOK R l

/-- Two rows that together violate `uq_pua_user_patient_active`
(one ACTIVE record per (user, patient)). -/
def violates_uq_user_patient (a b : PatientUserAccess) : Bool :=
  a.user == b.user && a.patient == b.patient && a.is_active && b.is_active

/-- Two rows that together violate `uq_pua_one_primary_per_patient`
(only one active PRIMARY holder per patient at any time). -/
def violates_uq_one_primary (a b : PatientUserAccess) : Bool :=
  a.patient == b.patient
    && a.role = AccessRole.primary && b.role = AccessRole.primary
    && a.is_active && b.is_active

/-- `uq_pua_user_patient_active` holds of a table. -/
def uq_pua_user_patient_active (l : List PatientUserAccess) : Bool :=
  pairwiseOK (fun a b => !(violates_uq_user_patient a b)) l

/-- `uq_pua_one_primary_per_patient` holds of a table. -/
def uq_pua_one_primary_per_patient (l : List PatientUserAccess) : Bool :=
  pairwiseOK (fun a b => !(violates_uq_one_primary a b)) l

/-- `chk_pua_revocation_consistency`, per row: active records have no
`revoked_at`; revoked records have `revoked_at` set. -/
def chk_pua_revocation_consistency_row (a : PatientUserAccess) : Bool :=
  (a.is_active && a.revoked_at.isNone) || (!a.is_active && a.revoked_at.isSome)

/-- `chk_pua_revocation_consistency` over the whole table. -/
def chk_pua_revocation_consistency (l : List PatientUserAccess) : Bool :=
  l.all chk_pua_revocation_consistency_row

/-- All constraints of `PatientUserAccess.Meta.constraints`. -/
def pua_meta_constraints_ok (l : List PatientUserAccess) : Bool :=
  uq_pua_user_patient_active l
    && uq_pua_one_primary_per_patient l
    && chk_pua_revocation_consistency l

/-- The storage layer: a transaction proposing a new PatientUserAccess
table commits only if the table satisfies every declared constraint;
otherwise the database raises IntegrityError (`none`) and the
transaction rolls back.  This is what "enforced at the storage layer,
not merely in application code" means: it applies to every code path. -/
def storage_commit (proposed : List PatientUserAccess) :
    Option (List PatientUserAccess) :=
  if pua_meta_constraints_ok proposed then some proposed else none

/-- Count of active `role=primary` rows a table holds for a patient. -/
def active_primary_count (l : List PatientUserAccess) (pid : Nat) : Nat :=
  (l.filter (fun a =>
    a.patient == pid && a.role = AccessRole.primary && a.is_active)).length

/-! ## Tier-2 OTP (claims/models.py, core/utils/otp.py) -/

/-- `ProfileClaimOTP` (claims/models.py). -/
structure ProfileClaimOTP where
  id : Nat
  patient : Nat
  requested_by : Nat
  otp_hash : String
  sent_to_email_masked : String
  expires_at : Nat
  is_used : Bool
  used_at : Option Nat
  is_invalidated : Bool
  invalidated_at : Option Nat
  invalidation_reason : Option String
  attempt_count : Nat
  created_at : Nat
deriving DecidableEq, Repr

/-- `ProfileClaimOTP.is_valid` — True if this OTP can still be used for
verification.  `timezone.now()` is the `now` argument; the code compares
`expires_at > now` strictly. -/
def ProfileClaimOTP.is_valid (o : ProfileClaimOTP) (now : Nat) : Bool :=
  !o.is_used && !o.is_invalidated && decide (now < o.expires_at)
    && decide (o.attempt_count < 3)

/-- `generate_numeric_otp` (core/utils/otp.py): draws `length` random
digits; `rand` stands for the `secrets.choice` stream.  Lengths outside
4..10 raise ValueError. -/
def generate_numeric_otp (rand : Nat → Char) (length : Nat) :
    Except String String :=
  if length < 4 || 10 < length then
    .error "OTP length must be between 4 and 10"
  else
    .ok (String.mk ((List.range length).map rand))

/-- `generate_otp_with_expiry` (core/utils/otp.py): returns the OTP and
its expiry, `now + validity_minutes` (timestamps in seconds).  The
code's default arguments are `length = 6`, `validity_minutes = 10`. -/
def generate_otp_with_expiry (rand : Nat → Char) (length validity_minutes : Nat)
    (now : Nat) : Except String (String × Nat) :=
  match generate_numeric_otp rand length with
  | .error e => .error e
  | .ok otp => .ok (otp, now + validity_minutes * 60)

/-! ## The two-revocation race (sevices.py locking discipline)

`revoke_access` and `self_exit` run as serializable units of work.  In
the scenario of exactly two active holders whose two grants are being
removed concurrently, the rows each transaction touches are:

  * its actor row and its target row, read (and, for the target,
    row-locked) before the patient-row lock — both rows are among the
    two grants, and only `is_active` changes during the race;
  * the patient identity row, locked with `select_for_update()` before
    the active-holder count and held until commit;
  * the target row's revocation update, applied atomically at commit.

The machine below is that protocol for two transactions.  Transaction A
removes grant A, transaction B removes grant B (the two grants of the
two holders — `revoke_access` forbids revoking your own grant and
`self_exit` only removes your own, so each grant has one remover).
`actorA`/`actorB` choose which holder's credential each transaction runs
under (its own for self-exit, the other holder's for revoke); the
capability, primary-role and self-revocation checks depend only on data
that is constant during the race, so a transaction that passes them is
modelled by a successful fetch. -/

/-- Progress of one revoking transaction. -/
inductive Phase where
  | start
  | fetched
  | locked
  | committed
  | abortedOrphan
  | abortedNotFound
deriving DecidableEq, Repr, Fintype

/-- Shared state of the race: the two grants' `is_active` flags, the
patient-row lock, and each transaction's phase. -/
structure RaceState where
  gA : Bool
  gB : Bool
  lockHeld : Option Bool
  phA : Phase
  phB : Phase
deriving DecidableEq, Repr, Fintype

/-- The `is_active` flag of holder `i`'s grant (`false` = holder A). -/
def RaceState.gOf (s : RaceState) (i : Bool) : Bool :=
  if i then s.gB else s.gA

/-- Active-holder count seen by a count under the patient-row lock. -/
def RaceState.count (s : RaceState) : Nat :=
  (if s.gA then 1 else 0) + (if s.gB then 1 else 0)

/-- One scheduler step of transaction `i` (`false` = the transaction
removing grant A, `true` = the one removing grant B).  A transaction
waiting for a held lock is blocked: its step is a no-op. -/
def raceStep (actorA actorB : Bool) (s : RaceState) (i : Bool) : RaceState :=
  if i then
    match s.phB with
    | .start =>
      if s.gOf actorB && s.gB then { s with phB := .fetched }
      else { s with phB := .abortedNotFound }
    | .fetched =>
      if s.lockHeld = none then { s with lockHeld := some true, phB := .locked }
      else s
    | .locked =>
      if s.count ≤ 1 then { s with phB := .abortedOrphan, lockHeld := none }
      else { s with gB := false, phB := .committed, lockHeld := none }
    | _ => s
  else
    match s.phA with
    | .start =>
      if s.gOf actorA && s.gA then { s with phA := .fetched }
      else { s with phA := .abortedNotFound }
    | .fetched =>
      if s.lockHeld = none then { s with lockHeld := some false, phA := .locked }
      else s
    | .locked =>
      if s.count ≤ 1 then { s with phA := .abortedOrphan, lockHeld := none }
      else { s with gA := false, phA := .committed, lockHeld := none }
    | _ => s

/-- Run a schedule from a state. -/
def raceRun (actorA actorB : Bool) (s : RaceState) (sched : List Bool) : RaceState :=
  sched.foldl (raceStep actorA actorB) s

/-- Initial state: two active holders, no lock held, both transactions
about to start. -/
def raceInit : RaceState :=
  { gA := true, gB := true, lockHeld := none, phA := .start, phB := .start }

/-- A transaction has finished (committed or rolled back). -/
def Phase.done : Phase → Bool
  | .committed => true
  | .abortedOrphan => true
  | .abortedNotFound => true
  | _ => false

/-- A transaction has performed its reads and is waiting for or holding
the patient-row lock. -/
def Phase.inFlight : Phase → Bool
  | .fetched => true
  | .locked => true
  | _ => false

/-- Inductive invariant of the race: a grant is inactive exactly when its
removing transaction committed; the lock belongs to exactly the
transaction in its locked section; an orphan-protection or not-found
rollback means the other transaction already committed; the two
transactions never both commit. -/
def RaceInv (s : RaceState) : Prop :=
  (s.gA = false ↔ s.phA = .committed)
  ∧ (s.gB = false ↔ s.phB = .committed)
  ∧ (s.lockHeld = some false ↔ s.phA = .locked)
  ∧ (s.lockHeld = some true ↔ s.phB = .locked)
  ∧ (s.phA = .abortedOrphan → s.phB = .committed)
  ∧ (s.phB = .abortedOrphan → s.phA = .committed)
  ∧ (s.phA = .abortedNotFound → s.phB = .committed)
  ∧ (s.phB = .abortedNotFound → s.phA = .committed)
  ∧ ¬(s.phA = .committed ∧ s.phB = .committed)

instance : DecidablePred RaceInv := by
  unfold RaceInv
  infer_instance

lemma raceInv_init : RaceInv raceInit := by decide

lemma raceInv_step (actorA actorB : Bool) (s : RaceState) (i : Bool)
    (h : RaceInv s) : RaceInv (raceStep actorA actorB s i) := by
  revert h
  revert actorA actorB s i
  decide

lemma raceInv_run (actorA actorB : Bool) (s : RaceState) (sched : List Bool)
    (h : RaceInv s) : RaceInv (raceRun actorA actorB s sched) := by
  induction sched generalizing s with
  | nil => exact h
  | cons i rest ih => exact ih _ (raceInv_step actorA actorB s i h)

/-- Once a transaction has fetched its rows it can no longer roll back
with a not-found error (per transaction, one step). -/
lemma race_no_notFound_step (actorA actorB : Bool) (s : RaceState) (i : Bool) :
    ((s.phA ≠ .start ∧ s.phA ≠ .abortedNotFound) →
      ((raceStep actorA actorB s i).phA ≠ .start
        ∧ (raceStep actorA actorB s i).phA ≠ .abortedNotFound))
    ∧ ((s.phB ≠ .start ∧ s.phB ≠ .abortedNotFound) →
      ((raceStep actorA actorB s i).phB ≠ .start
        ∧ (raceStep actorA actorB s i).phB ≠ .abortedNotFound)) := by
  revert actorA actorB s i
  decide

lemma race_no_notFound_run (actorA actorB : Bool) (s : RaceState)
    (sched : List Bool) :
    ((s.phA ≠ .start ∧ s.phA ≠ .abortedNotFound) →
      ((raceRun actorA actorB s sched).phA ≠ .start
        ∧ (raceRun actorA actorB s sched).phA ≠ .abortedNotFound))
    ∧ ((s.phB ≠ .start ∧ s.phB ≠ .abortedNotFound) →
      ((raceRun actorA actorB s sched).phB ≠ .start
        ∧ (raceRun actorA actorB s sched).phB ≠ .abortedNotFound)) := by
  induction sched generalizing s with
  | nil => exact ⟨fun h => h, fun h => h⟩
  | cons i rest ih =>
    constructor
    · intro h
      exact (ih (raceStep actorA actorB s i)).1
        ((race_no_notFound_step actorA actorB s i).1 h)
    · intro h
      exact (ih (raceStep actorA actorB s i)).2
        ((race_no_notFound_step actorA actorB s i).2 h)

lemma raceInv_count (s : RaceState) (h : RaceInv s) : 1 ≤ s.count := by
  revert h
  revert s
  decide

lemma raceInv_outcome (s : RaceState) (h : RaceInv s)
    (hA : s.phA ≠ .abortedNotFound) (hB : s.phB ≠ .abortedNotFound)
    (dA : s.phA.done = true) (dB : s.phB.done = true) :
    (s.phA = .committed ∧ s.phB = .abortedOrphan)
      ∨ (s.phB = .committed ∧ s.phA = .abortedOrphan) := by
  revert h hA hB dA dB
  revert s
  decide

lemma Phase.inFlight_not_start {ph : Phase} (h : ph.inFlight = true) :
    ph ≠ .start ∧ ph ≠ .abortedNotFound := by
  cases ph <;> simp_all [Phase.inFlight]

lemma raceRun_append (actorA actorB : Bool) (s : RaceState) (s₁ s₂ : List Bool) :
    raceRun actorA actorB s (s₁ ++ s₂)
      = raceRun actorA actorB (raceRun actorA actorB s s₁) s₂ := by
  simp [raceRun, List.foldl_append]

/-- C2: when exactly two active holders exist for a patient and two
revocations (`revoke_access` or `self_exit`) of those two grants run
concurrently, exactly one succeeds and the other fails with
OrphanProtection; no interleaving commits both and leaves the patient
with zero active holders, because the patient-row lock is acquired
before the active-holder count and held until the mutation commits.
Formally, over the race machine: (1) every interleaving keeps at least
one active holder at every point; (2) no interleaving commits both
revocations; (3) whenever the two transactions actually overlap (both
have performed their reads before either commits — in particular they
cannot fail the initial row fetch), every interleaving that finishes
both ends with exactly one committed and the other rolled back with
OrphanProtection. -/
theorem concurrent_revocations_exclusive :
    (∀ actorA actorB sched, 1 ≤ (raceRun actorA actorB raceInit sched).count)
    ∧ (∀ actorA actorB sched,
        ¬((raceRun actorA actorB raceInit sched).phA = .committed
          ∧ (raceRun actorA actorB raceInit sched).phB = .committed))
    ∧ (∀ actorA actorB s₁ s₂,
        (raceRun actorA actorB raceInit s₁).phA.inFlight = true →
        (raceRun actorA actorB raceInit s₁).phB.inFlight = true →
        (raceRun actorA actorB raceInit (s₁ ++ s₂)).phA.done = true →
        (raceRun actorA actorB raceInit (s₁ ++ s₂)).phB.done = true →
        ((raceRun actorA actorB raceInit (s₁ ++ s₂)).phA = .committed
          ∧ (raceRun actorA actorB raceInit (s₁ ++ s₂)).phB = .abortedOrphan)
        ∨ ((raceRun actorA actorB raceInit (s₁ ++ s₂)).phB = .committed
          ∧ (raceRun actorA actorB raceInit (s₁ ++ s₂)).phA = .abortedOrphan)) := by
  refine ⟨?_, ?_, ?_⟩
  · intro aA aB sched
    exact raceInv_count _ (raceInv_run aA aB raceInit sched raceInv_init)
  · intro aA aB sched
    exact (raceInv_run aA aB raceInit sched raceInv_init).2.2.2.2.2.2.2.2
  · intro aA aB s₁ s₂ h1 h2 d1 d2
    have hmidInv := raceInv_run aA aB raceInit s₁ raceInv_init
    have hnf := race_no_notFound_run aA aB (raceRun aA aB raceInit s₁) s₂
    have hAnf := hnf.1 (Phase.inFlight_not_start h1)
    have hBnf := hnf.2 (Phase.inFlight_not_start h2)
    rw [raceRun_append] at d1 d2 ⊢
    exact raceInv_outcome _ (raceInv_run aA aB _ s₂ hmidInv) hAnf.2 hBnf.2 d1 d2

/-! ## Concrete fixtures used by witnesses and counterexamples -/

/-- A user table: three active accounts. -/
def uAlice : UserAccount := { id := 1, email := "alice@example.com", is_active := true }

def uBob : UserAccount := { id := 2, email := "bob@example.com", is_active := true }

def uCara : UserAccount := { id := 3, email := "cara@example.com", is_active := true }

/-- A claimed patient profile. -/
def pClaimed : Patient :=
  { id := 10, mrn := some "UHR-20260101-AA", first_name := "Pat", last_name := "One"
    email := none, is_deceased := false, deceased_date := none
    is_claimed := true, claimed_at := some 5, transfer_eligible_at := none
    deleted_at := none }

/-- An unclaimed dependent profile. -/
def pUnclaimed : Patient :=
  { id := 11, mrn := some "UHR-20260101-BB", first_name := "Kid", last_name := "Two"
    email := none, is_deceased := false, deceased_date := none
    is_claimed := false, claimed_at := none, transfer_eligible_at := none
    deleted_at := none }

/-- Alice's primary grant over the claimed profile. -/
def accAlicePrimary : PatientUserAccess :=
  { id := 100, user := 1, patient := 10, role := AccessRole.primary
    is_active := true, claim_method := ClaimMethod.system_created
    trust_level := TrustLevel.system, granted_by := none, granted_at := 0
    revoked_at := none, revoked_by := none, revocation_reason := none
    notes := none }

/-- Bob's caregiver grant over the claimed profile. -/
def accBobCaregiver : PatientUserAccess :=
  { id := 101, user := 2, patient := 10, role := AccessRole.caregiver
    is_active := true, claim_method := ClaimMethod.system_created
    trust_level := TrustLevel.delegate_granted, granted_by := some 1, granted_at := 1
    revoked_at := none, revoked_by := none, revocation_reason := none
    notes := none }

/-- Alice's sole delegate grant over the unclaimed profile. -/
def accAliceDelegate : PatientUserAccess :=
  { id := 102, user := 1, patient := 11, role := AccessRole.full_delegate
    is_active := true, claim_method := ClaimMethod.system_created
    trust_level := TrustLevel.delegate_granted, granted_by := none, granted_at := 2
    revoked_at := none, revoked_by := none, revocation_reason := none
    notes := none }

/-- Claimed profile with two active holders (Alice primary, Bob caregiver). -/
def dbTwoHolders : DB :=
  { users := [uAlice, uBob, uCara]
    patients := [pClaimed]
    accesses := [accAlicePrimary, accBobCaregiver] }

/-- Unclaimed profile whose only active holder is Alice. -/
def dbSolo : DB :=
  { users := [uAlice, uBob]
    patients := [pUnclaimed]
    accesses := [accAliceDelegate] }

/-- Empty database. -/
def dbEmpty : DB := { users := [], patients := [], accesses := [] }

/-- Creation payload for a self profile (`is_dependent=False`). -/
def dataSelf : CreatePatientSchema :=
  { first_name := "Ann", last_name := "Self", email := none
    is_deceased := false, deceased_date := none
    is_dependent := false, transfer_eligible_at := none }

/-- Creation payload for a dependent profile (`is_dependent=True`). -/
def dataDep : CreatePatientSchema :=
  { first_name := "Dep", last_name := "Child", email := none
    is_deceased := false, deceased_date := none
    is_dependent := true, transfer_eligible_at := some 100000 }

/-- Grant payload asking for role=primary. -/
def dataPrimary : GrantAccessSchema :=
  { user_email := "bob@example.com", role := AccessRole.primary, notes := none }

/-- Grant payload addressed to an email with no matching active user. -/
def dataNobody : GrantAccessSchema :=
  { user_email := "nobody@example.com", role := AccessRole.caregiver, notes := none }

/-- Grant payload addressed to Bob, who already holds active access. -/
def dataBob : GrantAccessSchema :=
  { user_email := "bob@example.com", role := AccessRole.viewer, notes := none }

/-- Witness for C2: a concrete contended interleaving (both transactions
read while both grants were active; transaction A then commits and
transaction B is rolled back with OrphanProtection). -/
theorem concurrent_revocations_exclusive_witness :
    ((raceRun true false raceInit
        ([false, true] ++ [false, false, true, true])).phA = .committed
      ∧ (raceRun true false raceInit
        ([false, true] ++ [false, false, true, true])).phB = .abortedOrphan)
    ∨ ((raceRun true false raceInit
        ([false, true] ++ [false, false, true, true])).phB = .committed
      ∧ (raceRun true false raceInit
        ([false, true] ++ [false, false, true, true])).phA = .abortedOrphan) :=
  concurrent_revocations_exclusive.2.2 true false [false, true]
    [false, false, true, true] (by decide) (by decide) (by decide) (by decide)

/-- C4: the manage capability of an access record is a pure function of
its role and the identity's current claim state — `can_manage_access` is
true iff role is primary, or role is full_delegate and the patient is
unclaimed; it reads no stored flag, so it depends on nothing but those
two inputs, and a full_delegate's capability is false the instant
`is_claimed` is true. -/
theorem can_manage_access_pure_of_role_and_claim_state :
    (∀ (a : PatientUserAccess) (p : Patient),
        a.can_manage_access p = true
          ↔ (a.role = AccessRole.primary
              ∨ (a.role = AccessRole.full_delegate ∧ p.is_claimed = false)))
    ∧ (∀ (a b : PatientUserAccess) (p q : Patient),
        a.role = b.role → p.is_claimed = q.is_claimed →
        a.can_manage_access p = b.can_manage_access q)
    ∧ (∀ (a : PatientUserAccess) (p : Patient),
        a.role = AccessRole.full_delegate →
        a.can_manage_access { p with is_claimed := true } = false) := by
  refine ⟨?_, ?_, ?_⟩
  · intro a p
    unfold PatientUserAccess.can_manage_access
    cases h : a.role <;> cases hc : p.is_claimed <;> simp [h, hc]
  · intro a b p q hr hc
    unfold PatientUserAccess.can_manage_access
    rw [hr, hc]
  · intro a p h
    unfold PatientUserAccess.can_manage_access
    simp [h]

/-- Witness for C4: a delegate grant manages an unclaimed profile but
loses the capability on the claimed version of the same profile. -/
theorem can_manage_access_pure_witness :
    accAliceDelegate.role = AccessRole.full_delegate
    ∧ accAliceDelegate.can_manage_access pUnclaimed = true
    ∧ accAliceDelegate.can_manage_access { pUnclaimed with is_claimed := true } = false :=
  ⟨rfl, by decide,
    can_manage_access_pure_of_role_and_claim_state.2.2 accAliceDelegate pUnclaimed rfl⟩

/-- C10: `create_patient` with `is_dependent=False` marks the new patient
claimed (with `claimed_at` set to now) and gives the creator a primary,
system-created, system-trust access record; with `is_dependent=True` it
leaves the patient unclaimed (`claimed_at` null) and gives the creator a
full_delegate access with delegate_granted trust; either way the access
row belongs to the creator and the new patient. -/
theorem create_patient_claim_state :
    ∀ (db : DB) (u : Nat) (data : CreatePatientSchema) (mrn : String)
      (npid naid now : Nat),
      (data.is_dependent = false →
        (create_patient db u data mrn npid naid now).2.1.is_claimed = true
        ∧ (create_patient db u data mrn npid naid now).2.1.claimed_at = some now
        ∧ (create_patient db u data mrn npid naid now).2.2.role = AccessRole.primary
        ∧ (create_patient db u data mrn npid naid now).2.2.claim_method
            = ClaimMethod.system_created
        ∧ (create_patient db u data mrn npid naid now).2.2.trust_level
            = TrustLevel.system)
      ∧ (data.is_dependent = true →
        (create_patient db u data mrn npid naid now).2.1.is_claimed = false
        ∧ (create_patient db u data mrn npid naid now).2.1.claimed_at = none
        ∧ (create_patient db u data mrn npid naid now).2.2.role = AccessRole.full_delegate
        ∧ (create_patient db u data mrn npid naid now).2.2.claim_method
            = ClaimMethod.system_created
        ∧ (create_patient db u data mrn npid naid now).2.2.trust_level
            = TrustLevel.delegate_granted)
      ∧ (create_patient db u data mrn npid naid now).2.2.user = u
      ∧ (create_patient db u data mrn npid naid now).2.2.patient = npid
      ∧ (create_patient db u data mrn npid naid now).2.2
          ∈ (create_patient db u data mrn npid naid now).1.accesses := by
  intro db u data mrn npid naid now
  unfold create_patient
  cases h : data.is_dependent <;> simp [h]

/-- Witness for C10: a self profile yields a claimed patient with a
primary grant; a dependent profile yields an unclaimed patient with a
full_delegate grant. -/
theorem create_patient_claim_state_witness :
    ((create_patient dbEmpty 1 dataSelf "UHR-X" 20 200 7).2.1.is_claimed = true
      ∧ (create_patient dbEmpty 1 dataSelf "UHR-X" 20 200 7).2.1.claimed_at = some 7
      ∧ (create_patient dbEmpty 1 dataSelf "UHR-X" 20 200 7).2.2.role = AccessRole.primary
      ∧ (create_patient dbEmpty 1 dataSelf "UHR-X" 20 200 7).2.2.claim_method
          = ClaimMethod.system_created
      ∧ (create_patient dbEmpty 1 dataSelf "UHR-X" 20 200 7).2.2.trust_level
          = TrustLevel.system)
    ∧ ((create_patient dbEmpty 1 dataDep "UHR-Y" 21 201 7).2.1.is_claimed = false
      ∧ (create_patient dbEmpty 1 dataDep "UHR-Y" 21 201 7).2.1.claimed_at = none
      ∧ (create_patient dbEmpty 1 dataDep "UHR-Y" 21 201 7).2.2.role
          = AccessRole.full_delegate
      ∧ (create_patient dbEmpty 1 dataDep "UHR-Y" 21 201 7).2.2.claim_method
          = ClaimMethod.system_created
      ∧ (create_patient dbEmpty 1 dataDep "UHR-Y" 21 201 7).2.2.trust_level
          = TrustLevel.delegate_granted) :=
  ⟨(create_patient_claim_state dbEmpty 1 dataSelf "UHR-X" 20 200 7).1 rfl,
   (create_patient_claim_state dbEmpty 1 dataDep "UHR-Y" 21 201 7).2.1 rfl⟩

/-- C9: a ProfileClaimOTP is valid iff it is not used, not invalidated,
its expiry has not passed and its attempt count is strictly below 3; a
challenge with `attempt_count = 3` is invalid regardless of the other
fields; and `generate_otp_with_expiry` with the default arguments
(length 6, validity 10 minutes) sets the expiry to creation time plus
600 seconds. -/
theorem otp_validity_rule :
    (∀ (o : ProfileClaimOTP) (now : Nat),
        o.is_valid now = true
          ↔ (o.is_used = false ∧ o.is_invalidated = false
              ∧ now < o.expires_at ∧ o.attempt_count < 3))
    ∧ (∀ (o : ProfileClaimOTP) (now : Nat),
        o.attempt_count = 3 → o.is_valid now = false)
    ∧ (∀ (rand : Nat → Char) (now : Nat) (r : String × Nat),
        generate_otp_with_expiry rand 6 10 now = .ok r → r.2 = now + 600) := by
  refine ⟨?_, ?_, ?_⟩
  · intro o now
    unfold ProfileClaimOTP.is_valid
    simp [Bool.and_eq_true, Bool.not_eq_true', and_assoc]
  · intro o now h
    unfold ProfileClaimOTP.is_valid
    simp [h]
  · intro rand now r h
    unfold generate_otp_with_expiry generate_numeric_otp at h
    simp at h
    obtain ⟨h1, h2⟩ := h
    omega

/-- An unexpired, unused, not invalidated challenge that has already
consumed its three verification attempts. -/
def otpExhausted : ProfileClaimOTP :=
  { id := 500, patient := 10, requested_by := 2, otp_hash := "h"
    sent_to_email_masked := "masked", expires_at := 1000
    is_used := false, used_at := none, is_invalidated := false
    invalidated_at := none, invalidation_reason := none
    attempt_count := 3, created_at := 0 }

/-- Witness for C9: the exhausted challenge is invalid even though it is
unexpired, unused and not invalidated, and a freshly generated default
OTP expires 600 seconds after issuance. -/
theorem otp_validity_rule_witness :
    otpExhausted.is_valid 100 = false
    ∧ (("777777", (1000 : Nat)) : String × Nat).2 = 400 + 600 :=
  ⟨otp_validity_rule.2.1 otpExhausted 100 rfl,
   otp_validity_rule.2.2 (fun _ => '7') 400 ("777777", 1000) rfl⟩

/-- C5: asking the grant operation for role=primary always fails with a
ValidationError and inserts no access record (primary is claim-only: the
endpoint's `GrantAccessSchema.validate_role` rejects it before the
service function runs). -/
theorem grant_primary_always_rejected :
    ∀ (db : DB) (u pid : Nat) (data : GrantAccessSchema) (naid now : Nat),
      data.role = AccessRole.primary →
      grant_access_api db u pid data naid now = .error (.ValidationError "role")
      ∧ applyGrantApi db u pid data naid now = db := by
  intro db u pid data naid now h
  have hv : validate_role data.role = .error (.ValidationError "role") := by
    rw [h]; rfl
  constructor
  · simp [grant_access_api, hv]
  · simp [applyGrantApi, grant_access_api, hv]

/-- Witness for C5: granting primary on a live profile with a
manage-capable actor is still rejected by validation. -/
theorem grant_primary_always_rejected_witness :
    grant_access_api dbTwoHolders 1 10 dataPrimary 999 8
        = .error (.ValidationError "role")
    ∧ applyGrantApi dbTwoHolders 1 10 dataPrimary 999 8 = dbTwoHolders :=
  grant_primary_always_rejected dbTwoHolders 1 10 dataPrimary 999 8 rfl

/-! ## The one-active-primary constraint (C3) -/

/-- Row `a` is an active primary grant for patient `pid`. -/
def isActivePrimaryFor (pid : Nat) (a : PatientUserAccess) : Bool :=
  a.patient == pid && a.role = AccessRole.primary && a.is_active

lemma active_primary_count_cons (a : PatientUserAccess)
    (t : List PatientUserAccess) (pid : Nat) :
    active_primary_count (a :: t) pid
      = active_primary_count t pid + (if isActivePrimaryFor pid a then 1 else 0) := by
  unfold active_primary_count isActivePrimaryFor
  rw [List.filter_cons]
  split <;> simp_all

lemma violates_uq_one_primary_iff (a b : PatientUserAccess) :
    violates_uq_one_primary a b = true
      ↔ (isActivePrimaryFor a.patient a = true
          ∧ isActivePrimaryFor a.patient b = true) := by
  unfold violates_uq_one_primary isActivePrimaryFor
  simp only [Bool.and_eq_true, beq_iff_eq, decide_eq_true_eq]
  aesop

/-- The declared partial unique constraint is exactly the per-patient
bound on active primary grants. -/
lemma uq_one_primary_iff_count (l : List PatientUserAccess) :
    uq_pua_one_primary_per_patient l = true
      ↔ ∀ pid, active_primary_count l pid ≤ 1 := by
  induction l with
  | nil => simp [uq_pua_one_primary_per_patient, pairwiseOK, active_primary_count]
  | cons a t ih =>
    unfold uq_pua_one_primary_per_patient pairwiseOK
    unfold uq_pua_one_primary_per_patient at ih
    rw [Bool.and_eq_true, List.all_eq_true]
    constructor
    · rintro ⟨hall, ht⟩ pid
      have hcount := ih.mp ht
      by_cases hpa : isActivePrimaryFor pid a = true
      · have hpid : a.patient = pid := by
          have h1 := hpa
          unfold isActivePrimaryFor at h1
          rw [Bool.and_eq_true, Bool.and_eq_true] at h1
          exact beq_iff_eq.mp h1.1.1
        have h0 : active_primary_count t pid = 0 := by
          unfold active_primary_count
          rw [List.length_eq_zero, List.filter_eq_nil]
          intro b hb hPb
          have hviol : violates_uq_one_primary a b = true := by
            rw [violates_uq_one_primary_iff, hpid]
            exact ⟨hpa, hPb⟩
          have := hall b hb
          rw [hviol] at this
          simp at this
        rw [active_primary_count_cons, h0, if_pos hpa]
      · rw [active_primary_count_cons, if_neg hpa]
        have := hcount pid
        omega
    · intro h
      refine ⟨?_, ih.mpr fun pid => ?_⟩
      · intro b hb
        cases hv : violates_uq_one_primary a b with
        | false => simp [hv]
        | true =>
          exfalso
          obtain ⟨ha2, hb2⟩ := (violates_uq_one_primary_iff a b).mp hv
          have hpos : 0 < active_primary_count t a.patient := by
            unfold active_primary_count
            refine List.length_pos_of_mem (List.mem_filter.mpr ⟨hb, ?_⟩)
            unfold isActivePrimaryFor at hb2
            exact hb2
          have h2 := h a.patient
          rw [active_primary_count_cons, if_pos ha2] at h2
          omega
      · have h2 := h pid
        rw [active_primary_count_cons] at h2
        omega

/-- C3: for every patient the count of active primary grants is at most
1, and this is enforced at the storage layer: the partial unique
constraint `uq_pua_one_primary_per_patient` declared on the table is
equivalent to the per-patient bound, and every table state the storage
layer lets any operation commit satisfies the bound. -/
theorem one_primary_per_patient_storage_enforced :
    (∀ l, uq_pua_one_primary_per_patient l = true
        ↔ ∀ pid, active_primary_count l pid ≤ 1)
    ∧ (∀ proposed committed, storage_commit proposed = some committed →
        ∀ pid, active_primary_count committed pid ≤ 1) := by
  refine ⟨uq_one_primary_iff_count, ?_⟩
  intro proposed committed h pid
  unfold storage_commit at h
  split at h
  · rename_i hok
    rw [Option.some.injEq] at h
    subst h
    unfold pua_meta_constraints_ok at hok
    rw [Bool.and_eq_true, Bool.and_eq_true] at hok
    exact (uq_one_primary_iff_count _).mp hok.1.2 pid
  · cases h

/-- Witness for C3: the storage layer accepts the two-holder table (one
primary, one caregiver) and the committed table holds at most one active
primary for the patient. -/
theorem one_primary_per_patient_storage_enforced_witness :
    active_primary_count [accAlicePrimary, accBobCaregiver] 10 ≤ 1 :=
  one_primary_per_patient_storage_enforced.2
    [accAlicePrimary, accBobCaregiver] [accAlicePrimary, accBobCaregiver]
    (by decide) 10

/-! ## Shapes of successful service calls -/

lemma grant_access_ok_shape
    {db : DB} {u pid : Nat} {data : GrantAccessSchema} {naid now : Nat}
    {db2 : DB} {acc : PatientUserAccess}
    (h : grant_access db u pid data naid now = .ok (db2, acc)) :
    db2.users = db.users ∧ db2.patients = db.patients
    ∧ db2.accesses = db.accesses ++ [acc]
    ∧ acc.patient = pid ∧ acc.is_active = true ∧ acc.revoked_at = none := by
  unfold grant_access at h
  split at h
  · simp at h
  · split at h
    · simp at h
    · split at h
      · simp at h
      · split at h
        · simp at h
        · split at h
          · simp at h
          · simp only [Except.ok.injEq, Prod.mk.injEq] at h
            obtain ⟨hdb, hacc⟩ := h
            subst hdb
            subst hacc
            exact ⟨rfl, rfl, rfl, rfl, rfl, rfl⟩

lemma revoke_access_ok_shape
    {db : DB} {u pid aid : Nat} {r : String} {now : Nat}
    {db2 : DB} {t2 : PatientUserAccess}
    (h : revoke_access db u pid aid r now = .ok (db2, t2)) :
    ∃ ap t,
      get_active_access db u pid = .ok ap
      ∧ ap.1.can_manage_access ap.2 = true
      ∧ db.accesses.find?
          (fun a => a.id == aid && a.patient == pid && a.is_active) = some t
      ∧ t.role ≠ AccessRole.primary
      ∧ t.user ≠ u
      ∧ ¬(active_holder_count db pid ≤ 1)
      ∧ t2 = { t with
               is_active := false
               revoked_at := some now
               revoked_by := some u
               revocation_reason := some r }
      ∧ db2.users = db.users ∧ db2.patients = db.patients
      ∧ db2.accesses = db.accesses.map (fun a => if a.id = t.id then t2 else a) := by
  unfold revoke_access at h
  split at h
  · simp at h
  · rename_i acc pat heq
    split at h
    · simp at h
    · rename_i hmg
      split at h
      · simp at h
      · rename_i t hfind
        split at h
        · simp at h
        · rename_i hrole
          split at h
          · simp at h
          · rename_i huser
            split at h
            · simp at h
            · rename_i hcount
              simp only [Except.ok.injEq, Prod.mk.injEq] at h
              obtain ⟨hdb, ht⟩ := h
              subst hdb
              subst ht
              have hmg2 : acc.can_manage_access pat = true := by
                simpa using hmg
              exact ⟨(acc, pat), t, heq, hmg2, hfind, hrole, huser, hcount,
                rfl, rfl, rfl, rfl⟩

lemma self_exit_ok_shape
    {db : DB} {u pid : Nat} {r : Option String} {now : Nat}
    {db2 : DB} {a2 : PatientUserAccess}
    (h : self_exit db u pid r now = .ok (db2, a2)) :
    ∃ a p,
      db.accesses.find?
          (fun x => x.user == u && x.patient == pid && x.is_active) = some a
      ∧ db.findPatient pid = some p
      ∧ ¬(a.role = AccessRole.primary ∧ p.is_claimed = true)
      ∧ ¬(active_holder_count db pid ≤ 1)
      ∧ a2 = { a with
               is_active := false
               revoked_at := some now
               revoked_by := some u
               revocation_reason := some (r.getD "Self-exit.") }
      ∧ db2.users = db.users ∧ db2.patients = db.patients
      ∧ db2.accesses = db.accesses.map (fun x => if x.id = a.id then a2 else x) := by
  unfold self_exit at h
  split at h
  · simp at h
  · rename_i a hfind
    split at h
    · simp at h
    · rename_i p hpat
      split at h
      · simp at h
      · rename_i hprim
        split at h
        · simp at h
        · rename_i hcount
          simp only [Except.ok.injEq, Prod.mk.injEq] at h
          obtain ⟨hdb, ha⟩ := h
          subst hdb
          subst ha
          refine ⟨a, p, hfind, hpat, ?_, hcount, rfl, rfl, rfl, rfl⟩
          intro hand
          rw [hand.1, hand.2] at hprim
          simp at hprim

/-! ## Revocation consistency (C8) -/

lemma chk_row_iff (a : PatientUserAccess) :
    chk_pua_revocation_consistency_row a = true
      ↔ (a.is_active = false ↔ a.revoked_at ≠ none) := by
  unfold chk_pua_revocation_consistency_row
  cases ha : a.is_active <;> cases hr : a.revoked_at <;> simp [ha, hr]

/-- C8: for every access record, `is_active = false` iff
`revoked_at ≠ null`: the declared check constraint
`chk_pua_revocation_consistency` is exactly that equivalence per row,
every table the storage layer commits satisfies it, and every service
operation (create, grant, revoke, self-exit) preserves it. -/
theorem revocation_consistency_enforced :
    (∀ a, chk_pua_revocation_consistency_row a = true
        ↔ (a.is_active = false ↔ a.revoked_at ≠ none))
    ∧ (∀ proposed committed, storage_commit proposed = some committed →
        ∀ a ∈ committed, a.is_active = false ↔ a.revoked_at ≠ none)
    ∧ (∀ db op now, chk_pua_revocation_consistency db.accesses = true →
        chk_pua_revocation_consistency (applyOp db op now).accesses = true) := by
  refine ⟨chk_row_iff, ?_, ?_⟩
  · intro proposed committed h a ha
    unfold storage_commit at h
    split at h
    · rename_i hok
      rw [Option.some.injEq] at h
      subst h
      unfold pua_meta_constraints_ok chk_pua_revocation_consistency at hok
      rw [Bool.and_eq_true, Bool.and_eq_true] at hok
      exact (chk_row_iff a).mp (List.all_eq_true.mp hok.2 a ha)
    · cases h
  · intro db op now h
    cases op with
    | createOp u d mrn npid naid =>
      simp only [applyOp]
      unfold create_patient
      unfold chk_pua_revocation_consistency at h ⊢
      simp only [List.all_append, List.all_cons, List.all_nil, Bool.and_eq_true,
        Bool.and_true]
      exact ⟨h, rfl⟩
    | grantOp u pid d naid =>
      simp only [applyOp]
      split
      · rename_i db2 acc heq
        obtain ⟨_, _, hacc, _, hact, hrev⟩ := grant_access_ok_shape heq
        unfold chk_pua_revocation_consistency at h ⊢
        rw [hacc, List.all_append]
        simp only [List.all_cons, List.all_nil, Bool.and_eq_true, Bool.and_true]
        refine ⟨h, ?_⟩
        unfold chk_pua_revocation_consistency_row
        rw [hact, hrev]
        rfl
      · exact h
    | revokeOp u pid aid reason =>
      simp only [applyOp]
      split
      · rename_i db2 t2 heq
        obtain ⟨_, t, _, _, _, _, _, _, ht2, _, _, hacc⟩ := revoke_access_ok_shape heq
        unfold chk_pua_revocation_consistency at h ⊢
        rw [hacc, List.all_map]
        rw [List.all_eq_true] at h ⊢
        intro a ha
        by_cases hid : a.id = t.id
        · simp only [Function.comp_apply, if_pos hid, ht2]
          rfl
        · simp only [Function.comp_apply, if_neg hid]
          exact h a ha
      · exact h
    | selfExitOp u pid reason =>
      simp only [applyOp]
      split
      · rename_i db2 a2 heq
        obtain ⟨a, _, _, _, _, _, ha2, _, _, hacc⟩ := self_exit_ok_shape heq
        unfold chk_pua_revocation_consistency at h ⊢
        rw [hacc, List.all_map]
        rw [List.all_eq_true] at h ⊢
        intro x hx
        by_cases hid : x.id = a.id
        · simp only [Function.comp_apply, if_pos hid, ha2]
          rfl
        · simp only [Function.comp_apply, if_neg hid]
          exact h x hx
      · exact h

/-- Witness for C8: the check constraint accepts the two-holder table,
and a successful self-exit preserves the equivalence. -/
theorem revocation_consistency_enforced_witness :
    (accBobCaregiver.is_active = false ↔ accBobCaregiver.revoked_at ≠ none)
    ∧ chk_pua_revocation_consistency
        (applyOp dbTwoHolders (.selfExitOp 2 10 none) 9).accesses = true :=
  ⟨revocation_consistency_enforced.2.1
      [accAlicePrimary, accBobCaregiver] [accAlicePrimary, accBobCaregiver]
      (by decide) accBobCaregiver (by decide),
   revocation_consistency_enforced.2.2 dbTwoHolders (.selfExitOp 2 10 none) 9
      (by decide)⟩

/-! ## Orphan protection (C1) -/

/-- Primary keys are unique (Django guarantees this for the `id` column). -/
def AccessIdsNodup (db : DB) : Prop :=
  (db.accesses.map (fun a => a.id)).Nodup

/-- Every patient profile on file has at least one active access holder. -/
def OrphanFree (db : DB) : Prop :=
  ∀ p ∈ db.patients, 1 ≤ active_holder_count db p.id

instance (db : DB) : Decidable (AccessIdsNodup db) := by
  unfold AccessIdsNodup
  infer_instance

instance (db : DB) : Decidable (OrphanFree db) := by
  unfold OrphanFree
  infer_instance

/-- Replacing the row with `t.id` changes any `countP` by swapping `t`'s
contribution for the replacement's. -/
lemma countP_map_update (P : PatientUserAccess → Bool)
    (l : List PatientUserAccess) (t t2 : PatientUserAccess)
    (hnd : (l.map (fun a => a.id)).Nodup) (hmem : t ∈ l) :
    (l.map (fun a => if a.id = t.id then t2 else a)).countP P
      + (if P t = true then 1 else 0)
      = l.countP P + (if P t2 = true then 1 else 0) := by
  induction l with
  | nil => cases hmem
  | cons a l ih =>
    rw [List.map_cons, List.nodup_cons] at hnd
    rcases List.mem_cons.mp hmem with heq | hmem2
    · subst heq
      have hl : l.map (fun x => if x.id = t.id then t2 else x) = l := by
        have hpt : ∀ x ∈ l, (if x.id = t.id then t2 else x) = id x := by
          intro x hx
          have hxid : x.id ≠ t.id := by
            intro hxe
            exact hnd.1 (hxe ▸ List.mem_map_of_mem (fun a => a.id) hx)
          simp [if_neg hxid]
        rw [List.map_congr_left hpt, List.map_id]
      rw [List.map_cons, if_pos rfl, hl, List.countP_cons, List.countP_cons]
      omega
    · have hid : a.id ≠ t.id := by
        intro hae
        exact hnd.1 (hae ▸ List.mem_map_of_mem (fun a => a.id) hmem2)
      rw [List.map_cons, if_neg hid, List.countP_cons, List.countP_cons]
      have := ih hnd.2 hmem2
      omega

/-- `active_holder_count` after a single-row replacement. -/
lemma active_holder_count_update
    (db : DB) (t t2 : PatientUserAccess) (pid : Nat)
    (hnd : AccessIdsNodup db) (hmem : t ∈ db.accesses) :
    ((db.accesses.map (fun a => if a.id = t.id then t2 else a)).filter
        (fun a => a.patient == pid && a.is_active)).length
      + (if (t.patient == pid && t.is_active) = true then 1 else 0)
      = active_holder_count db pid
      + (if (t2.patient == pid && t2.is_active) = true then 1 else 0) := by
  unfold active_holder_count
  rw [← List.countP_eq_length_filter, ← List.countP_eq_length_filter]
  exact countP_map_update _ _ _ _ hnd hmem

/-- `get_active_access` only fails with PatientNotFound or
PatientRetracted. -/
lemma get_active_access_error_kinds {db : DB} {u pid : Nat} {e : PatientError}
    (h : get_active_access db u pid = .error e) :
    e = .PatientNotFound ∨ e = .PatientRetracted := by
  unfold get_active_access at h
  split at h
  · rw [Except.error.injEq] at h
    exact .inl h.symm
  · split at h
    · rw [Except.error.injEq] at h
      exact .inl h.symm
    · split at h
      · simp at h
      · rw [Except.error.injEq] at h
        exact .inr h.symm

/-- All checks of `revoke_access` that precede the orphan-protection
check: the actor holds active access to a live profile, may manage it,
and the target row exists, is active, is not primary and is not the
actor's own. -/
def RevokePre (db : DB) (u pid aid : Nat) : Prop :=
  ∃ ap t,
    get_active_access db u pid = .ok ap
    ∧ ap.1.can_manage_access ap.2 = true
    ∧ db.accesses.find?
        (fun a => a.id == aid && a.patient == pid && a.is_active) = some t
    ∧ t.role ≠ AccessRole.primary
    ∧ t.user ≠ u

/-- All checks of `self_exit` that precede the orphan-protection check:
the caller holds an active access row and is not the primary holder of a
claimed profile. -/
def SelfExitPre (db : DB) (u pid : Nat) : Prop :=
  ∃ a p,
    db.accesses.find?
        (fun x => x.user == u && x.patient == pid && x.is_active) = some a
    ∧ db.findPatient pid = some p
    ∧ ¬(a.role = AccessRole.primary ∧ p.is_claimed = true)

/-- C1: orphan protection.  (1) Every service operation (create, grant,
revoke, self-exit) preserves the invariant that each patient profile on
file keeps at least one active holder — creation establishes it with the
creator's own grant.  (2,3) A revocation or self-exit only commits when
the patient had at least two active holders, the removed one included.
(4,5) Each of the two operations rolls back with OrphanProtection
exactly when all its earlier checks pass and the active-holder count,
the record being removed included, is at most 1; a rolled-back call
returns only the error, so the grant stays active and the state is
unchanged (conjunct 1 covers the error case through `applyOp`). -/
theorem orphan_protection :
    (∀ db op now, AccessIdsNodup db → OrphanFree db →
        OrphanFree (applyOp db op now))
    ∧ (∀ db u pid aid r now db2 t,
        revoke_access db u pid aid r now = .ok (db2, t) →
        2 ≤ active_holder_count db pid)
    ∧ (∀ db u pid r now db2 a,
        self_exit db u pid r now = .ok (db2, a) →
        2 ≤ active_holder_count db pid)
    ∧ (∀ db u pid aid r now,
        revoke_access db u pid aid r now = .error .OrphanProtectionError
          ↔ RevokePre db u pid aid ∧ active_holder_count db pid ≤ 1)
    ∧ (∀ db u pid r now,
        self_exit db u pid r now = .error .OrphanProtectionError
          ↔ SelfExitPre db u pid ∧ active_holder_count db pid ≤ 1) := by
  refine ⟨?_, ?_, ?_, ?_, ?_⟩
  · -- invariant preservation
    intro db op now hnd hfree
    cases op with
    | createOp u d mrn npid naid =>
      simp only [applyOp]
      unfold create_patient
      intro p hp
      unfold active_holder_count
      simp only [List.filter_append, List.length_append]
      rcases List.mem_append.mp hp with hp1 | hp2
      · have := hfree p hp1
        unfold active_holder_count at this
        omega
      · rw [List.mem_singleton] at hp2
        subst hp2
        simp
    | grantOp u pid d naid =>
      simp only [applyOp]
      split
      · rename_i db2 acc heq
        obtain ⟨_, hpat, haccs, _, _, _⟩ := grant_access_ok_shape heq
        intro p hp
        rw [hpat] at hp
        unfold active_holder_count
        rw [haccs, List.filter_append, List.length_append]
        have := hfree p hp
        unfold active_holder_count at this
        omega
      · exact hfree
    | revokeOp u pid aid r =>
      simp only [applyOp]
      split
      · rename_i db2 t2 heq
        obtain ⟨_, t, _, _, hfind, _, _, hcount, ht2, _, hpat, haccs⟩ :=
          revoke_access_ok_shape heq
        have hmem := List.mem_of_find?_eq_some hfind
        have hPt := List.find?_some hfind
        simp only [Bool.and_eq_true, beq_iff_eq] at hPt
        obtain ⟨⟨_, htpid⟩, htact⟩ := hPt
        have ht2act : t2.is_active = false := by rw [ht2]
        intro p hp
        rw [hpat] at hp
        unfold active_holder_count
        rw [haccs]
        have hupd := active_holder_count_update db t t2 p.id hnd hmem
        have hP2false : (t2.patient == p.id && t2.is_active : Bool) = false := by
          rw [ht2act]
          simp
        have e0 : (if (t2.patient == p.id && t2.is_active) = true then (1:Nat) else 0) = 0 := by
          simp [hP2false]
        rw [e0] at hupd
        have hfp := hfree p hp
        by_cases hpp : p.id = pid
        · have hPtrue : (t.patient == p.id && t.is_active : Bool) = true := by
            rw [htpid, hpp, htact]
            simp
          have e1 : (if (t.patient == p.id && t.is_active) = true then (1:Nat) else 0) = 1 := by
            simp [hPtrue]
          rw [e1] at hupd
          rw [← hpp] at hcount
          omega
        · have hPfalse : (t.patient == p.id && t.is_active : Bool) = false := by
            have hne : (t.patient == p.id) = false := by
              rw [htpid, beq_eq_false_iff_ne]
              exact fun he => hpp he.symm
            rw [hne]
            simp
          have e1 : (if (t.patient == p.id && t.is_active) = true then (1:Nat) else 0) = 0 := by
            simp [hPfalse]
          rw [e1] at hupd
          omega
      · exact hfree
    | selfExitOp u pid r =>
      simp only [applyOp]
      split
      · rename_i db2 a2 heq
        obtain ⟨a, _, hfind, _, _, hcount, ha2, _, hpat, haccs⟩ :=
          self_exit_ok_shape heq
        have hmem := List.mem_of_find?_eq_some hfind
        have hPa := List.find?_some hfind
        simp only [Bool.and_eq_true, beq_iff_eq] at hPa
        obtain ⟨⟨_, hapid⟩, haact⟩ := hPa
        have ha2act : a2.is_active = false := by rw [ha2]
        intro p hp
        rw [hpat] at hp
        unfold active_holder_count
        rw [haccs]
        have hupd := active_holder_count_update db a a2 p.id hnd hmem
        have hP2false : (a2.patient == p.id && a2.is_active : Bool) = false := by
          rw [ha2act]
          simp
        have e0 : (if (a2.patient == p.id && a2.is_active) = true then (1:Nat) else 0) = 0 := by
          simp [hP2false]
        rw [e0] at hupd
        have hfp := hfree p hp
        by_cases hpp : p.id = pid
        · have hPtrue : (a.patient == p.id && a.is_active : Bool) = true := by
            rw [hapid, hpp, haact]
            simp
          have e1 : (if (a.patient == p.id && a.is_active) = true then (1:Nat) else 0) = 1 := by
            simp [hPtrue]
          rw [e1] at hupd
          rw [← hpp] at hcount
          omega
        · have hPfalse : (a.patient == p.id && a.is_active : Bool) = false := by
            have hne : (a.patient == p.id) = false := by
              rw [hapid, beq_eq_false_iff_ne]
              exact fun he => hpp he.symm
            rw [hne]
            simp
          have e1 : (if (a.patient == p.id && a.is_active) = true then (1:Nat) else 0) = 0 := by
            simp [hPfalse]
          rw [e1] at hupd
          omega
      · exact hfree
  · -- successful revoke implies two holders beforehand
    intro db u pid aid r now db2 t h
    obtain ⟨_, _, _, _, _, _, _, hcount, _⟩ := revoke_access_ok_shape h
    omega
  · -- successful self-exit implies two holders beforehand
    intro db u pid r now db2 a h
    obtain ⟨_, _, _, _, _, hcount, _⟩ := self_exit_ok_shape h
    omega
  · -- revoke OrphanProtection characterisation
    intro db u pid aid r now
    constructor
    · intro h
      unfold revoke_access at h
      split at h
      · rename_i e heq
        rw [Except.error.injEq] at h
        subst h
        rcases get_active_access_error_kinds heq with h1 | h1 <;> simp at h1
      · rename_i acc pat heq
        split at h
        · simp at h
        · rename_i hmg
          split at h
          · simp at h
          · rename_i t hfind
            split at h
            · simp at h
            · rename_i hrole
              split at h
              · simp at h
              · rename_i huser
                split at h
                · rename_i hcount
                  have hmg2 : acc.can_manage_access pat = true := by
                    simpa using hmg
                  exact ⟨⟨(acc, pat), t, heq, hmg2, hfind, hrole, huser⟩, hcount⟩
                · simp at h
    · rintro ⟨⟨⟨acc, pat⟩, t, heq, hmg, hfind, hrole, huser⟩, hcount⟩
      unfold revoke_access
      rw [heq]
      simp [hmg, hfind, hrole, huser, hcount]
  · -- self-exit OrphanProtection characterisation
    intro db u pid r now
    constructor
    · intro h
      unfold self_exit at h
      split at h
      · simp at h
      · rename_i a hfind
        split at h
        · simp at h
        · rename_i p hpat
          split at h
          · simp at h
          · rename_i hprim
            split at h
            · rename_i hcount
              refine ⟨⟨a, p, hfind, hpat, ?_⟩, hcount⟩
              intro hand
              rw [hand.1, hand.2] at hprim
              simp at hprim
            · simp at h
    · rintro ⟨⟨a, p, hfind, hpat, hnp⟩, hcount⟩
      unfold self_exit
      rw [hfind, hpat]
      have hb : (decide (a.role = AccessRole.primary) && p.is_claimed) = false := by
        by_cases hr : a.role = AccessRole.primary
        · have hc : p.is_claimed = false := by
            cases hcc : p.is_claimed
            · rfl
            · exact absurd ⟨hr, hcc⟩ hnp
          simp [hc]
        · simp [hr]
      simp [hb, hcount]

/-- Witness for C1: a revocation on a two-holder profile preserves the
invariant, and the sole delegate of a profile is refused self-exit with
OrphanProtection. -/
theorem orphan_protection_witness :
    OrphanFree (applyOp dbTwoHolders (.revokeOp 1 10 101 "cleanup") 9)
    ∧ self_exit dbSolo 1 11 none 9 = .error .OrphanProtectionError :=
  ⟨orphan_protection.1 dbTwoHolders (.revokeOp 1 10 101 "cleanup") 9
      (by decide) (by decide),
   (orphan_protection.2.2.2.2 dbSolo 1 11 none 9).mpr
      ⟨⟨accAliceDelegate, pUnclaimed, rfl, rfl, by decide⟩, by decide⟩⟩

/-! ## Target resolution in grant_access (C6) and revoke guards (C7) -/

lemma get_active_access_ok_shape {db : DB} {u pid : Nat}
    {a : PatientUserAccess} {p : Patient}
    (h : get_active_access db u pid = .ok (a, p)) :
    db.accesses.find?
        (fun x => x.user == u && x.patient == pid && x.is_active) = some a
    ∧ db.findPatient a.patient = some p
    ∧ p.is_active = true := by
  unfold get_active_access at h
  split at h
  · simp at h
  · rename_i a0 hf
    split at h
    · simp at h
    · rename_i p0 hp
      split at h
      · rename_i hact
        simp only [Except.ok.injEq, Prod.mk.injEq] at h
        obtain ⟨h1, h2⟩ := h
        subst h1
        subst h2
        exact ⟨hf, hp, hact⟩
      · simp at h

lemma find?_map_pred_eq {α : Type} (f : α → α) (p : α → Bool) :
    ∀ (l : List α), (∀ x ∈ l, p (f x) = p x) →
    (l.map f).find? p = (l.find? p).map f := by
  intro l
  induction l with
  | nil => intro hc; rfl
  | cons a l ih =>
    intro hc
    rw [List.map_cons]
    cases hpa : p a with
    | true =>
      have hfa : p (f a) = true := by
        rw [hc a (List.mem_cons_self a l)]
        exact hpa
      rw [List.find?_cons_of_pos _ hfa, List.find?_cons_of_pos _ hpa]
      rfl
    | false =>
      have hfa : ¬(p (f a) = true) := by
        rw [hc a (List.mem_cons_self a l), hpa]
        exact Bool.false_ne_true
      rw [List.find?_cons_of_neg _ hfa,
        List.find?_cons_of_neg _ (by rw [hpa]; exact Bool.false_ne_true)]
      exact ih (fun x hx => hc x (List.mem_cons_of_mem a hx))

/-- C6 counterexample: on a live profile with a manage-capable actor and
a target email with no matching active user, `grant_access` fails with
`ValidationError` keyed on `user_email`, not with NotFound as the claim
states. -/
theorem grant_target_not_resolving_counterexample :
    dbTwoHolders.users.find?
        (fun t => t.email == dataNobody.user_email && t.is_active) = none
    ∧ grant_access dbTwoHolders 1 10 dataNobody 999 9
        = .error (.ValidationError "user_email")
    ∧ grant_access dbTwoHolders 1 10 dataNobody 999 9
        ≠ .error .PatientNotFound := by
  refine ⟨rfl, rfl, fun h => ?_⟩
  rw [show grant_access dbTwoHolders 1 10 dataNobody 999 9
        = .error (.ValidationError "user_email") from rfl] at h
  simp at h

/-- C6 (amended): with the actor checks passed, `grant_access` fails with
`ValidationError` (field `user_email`) — not NotFound — when no active
user carries the target email, and fails with `DuplicateAccessError`
when the resolved target (someone other than the actor) already holds an
active grant for the patient; in both cases no access record is
inserted. -/
theorem grant_target_resolution :
    ∀ (db : DB) (u pid : Nat) (data : GrantAccessSchema) (naid now : Nat)
      (ap : PatientUserAccess × Patient),
      get_active_access db u pid = .ok ap →
      ap.1.can_manage_access ap.2 = true →
      ((db.users.find?
          (fun x => x.email == data.user_email && x.is_active) = none →
        grant_access db u pid data naid now = .error (.ValidationError "user_email")
        ∧ applyOp db (.grantOp u pid data naid) now = db)
      ∧ (∀ t, db.users.find?
          (fun x => x.email == data.user_email && x.is_active) = some t →
          t.id ≠ u →
          db.accesses.find?
            (fun a => a.user == t.id && a.patient == pid && a.is_active) ≠ none →
          grant_access db u pid data naid now = .error .DuplicateAccessError
          ∧ applyOp db (.grantOp u pid data naid) now = db)) := by
  intro db u pid data naid now ap hga hmg
  obtain ⟨acc, pat⟩ := ap
  constructor
  · intro hnone
    have hgr : grant_access db u pid data naid now
        = .error (.ValidationError "user_email") := by
      unfold grant_access
      rw [hga]
      simp [hmg, hnone]
    exact ⟨hgr, by simp [applyOp, hgr]⟩
  · intro t hsome hne hdup
    obtain ⟨x, hx⟩ := Option.ne_none_iff_exists.mp hdup
    have hgr : grant_access db u pid data naid now
        = .error .DuplicateAccessError := by
      unfold grant_access
      rw [hga]
      simp [hmg, hsome, hne, hx.symm]
    exact ⟨hgr, by simp [applyOp, hgr]⟩

/-- Witness for C6: Alice grants to an unknown email (ValidationError)
and to Bob, who already holds a grant (DuplicateAccessError); neither
changes the database. -/
theorem grant_target_resolution_witness :
    (grant_access dbTwoHolders 1 10 dataNobody 999 9
        = .error (.ValidationError "user_email")
      ∧ applyOp dbTwoHolders (.grantOp 1 10 dataNobody 999) 9 = dbTwoHolders)
    ∧ (grant_access dbTwoHolders 1 10 dataBob 999 9
        = .error .DuplicateAccessError
      ∧ applyOp dbTwoHolders (.grantOp 1 10 dataBob 999) 9 = dbTwoHolders) :=
  ⟨(grant_target_resolution dbTwoHolders 1 10 dataNobody 999 9
      (accAlicePrimary, pClaimed) rfl rfl).1 rfl,
   (grant_target_resolution dbTwoHolders 1 10 dataBob 999 9
      (accAlicePrimary, pClaimed) rfl rfl).2 uBob rfl (by decide) (by decide)⟩

/-- C7: `revoke_access` refuses, with AccessDenied and before any
mutation, to revoke a primary grant or the actor's own grant; and after
a successful revocation, revoking the same grant id again fails with
PatientNotFound (the "not found or already revoked" error), never
touching the already-revoked row a second time. -/
theorem revoke_access_guards :
    (∀ (db : DB) (u pid aid : Nat) (r : String) (now : Nat)
        (ap : PatientUserAccess × Patient) (t : PatientUserAccess),
        get_active_access db u pid = .ok ap →
        ap.1.can_manage_access ap.2 = true →
        db.accesses.find?
            (fun a => a.id == aid && a.patient == pid && a.is_active) = some t →
        (t.role = AccessRole.primary ∨ t.user = u) →
        revoke_access db u pid aid r now = .error .AccessDenied
        ∧ applyOp db (.revokeOp u pid aid r) now = db)
    ∧ (∀ (db : DB) (u pid aid : Nat) (r r2 : String) (now now2 : Nat),
        AccessIdsNodup db →
        (∃ db2 t, revoke_access db u pid aid r now = .ok (db2, t)) →
        revoke_access (applyOp db (.revokeOp u pid aid r) now) u pid aid r2 now2
          = .error .PatientNotFound) := by
  constructor
  · intro db u pid aid r now ap t hga hmg hfind hor
    obtain ⟨acc, pat⟩ := ap
    have hgr : revoke_access db u pid aid r now = .error .AccessDenied := by
      unfold revoke_access
      rw [hga]
      rcases hor with hprim | hself
      · simp [hmg, hfind, hprim]
      · by_cases hprim : t.role = AccessRole.primary
        · simp [hmg, hfind, hprim]
        · simp [hmg, hfind, hprim, hself]
    exact ⟨hgr, by simp [applyOp, hgr]⟩
  · intro db u pid aid r r2 now now2 hnd hex
    obtain ⟨db2, t2, heq⟩ := hex
    have happ : applyOp db (.revokeOp u pid aid r) now = db2 := by
      simp [applyOp, heq]
    rw [happ]
    obtain ⟨ap, t, hga, hmg, hfind, hrole, huser, hcount, ht2, hus, hpat, haccs⟩ :=
      revoke_access_ok_shape heq
    obtain ⟨acc, pat⟩ := ap
    have hmemt := List.mem_of_find?_eq_some hfind
    have hPt := List.find?_some hfind
    simp only [Bool.and_eq_true, beq_iff_eq] at hPt
    obtain ⟨⟨htid, htpid⟩, htact⟩ := hPt
    obtain ⟨hfa, hfpat, hpact⟩ := get_active_access_ok_shape hga
    have hamem := List.mem_of_find?_eq_some hfa
    have hPa := List.find?_some hfa
    simp only [Bool.and_eq_true, beq_iff_eq] at hPa
    obtain ⟨⟨hauser, hapid⟩, haact⟩ := hPa
    have hidneq : acc.id ≠ t.id := by
      intro hide
      have : acc = t := List.inj_on_of_nodup_map hnd hamem hmemt hide
      rw [this] at hauser
      exact huser hauser
    have ht2user : t2.user = t.user := by rw [ht2]
    have ht2act : t2.is_active = false := by rw [ht2]
    have hfa2 : db2.accesses.find?
        (fun x => x.user == u && x.patient == pid && x.is_active) = some acc := by
      rw [haccs]
      have hcong : ∀ x ∈ db.accesses,
          ((fun y => y.user == u && y.patient == pid && y.is_active)
            ((fun a => if a.id = t.id then t2 else a) x))
          = ((fun y => y.user == u && y.patient == pid && y.is_active) x) := by
        intro x hx
        by_cases hxe : x.id = t.id
        · have hxt : x = t := List.inj_on_of_nodup_map hnd hx hmemt hxe
          subst hxt
          have h1 : (x.user == u) = false := by
            rw [beq_eq_false_iff_ne]
            exact huser
          have h2 : (t2.user == u) = false := by
            rw [ht2user, beq_eq_false_iff_ne]
            exact huser
          simp [h1, h2, hxe]
        · simp [if_neg hxe]
      rw [find?_map_pred_eq _ _ db.accesses hcong, hfa]
      simp [hidneq]
    have hfp2 : db2.findPatient acc.patient = some pat := by
      unfold DB.findPatient
      rw [hpat]
      exact hfpat
    have hga2 : get_active_access db2 u pid = .ok (acc, pat) := by
      unfold get_active_access
      simp [hfa2, hfp2, hpact]
    have hnone : db2.accesses.find?
        (fun a => a.id == aid && a.patient == pid && a.is_active) = none := by
      rw [haccs, List.find?_eq_none]
      intro x hx
      rw [List.mem_map] at hx
      obtain ⟨y, hy, hxy⟩ := hx
      subst hxy
      by_cases hye : y.id = t.id
      · have hyt : y = t := List.inj_on_of_nodup_map hnd hy hmemt hye
        subst hyt
        rw [if_pos hye]
        simp [ht2act]
      · rw [if_neg hye]
        have hyaid : (y.id == aid) = false := by
          rw [beq_eq_false_iff_ne]
          intro hya
          exact hye (by rw [hya, ← htid])
        simp [hyaid]
    unfold revoke_access
    rw [hga2]
    simp [hmg, hnone]

/-- Witness for C7: Alice cannot revoke her own primary grant
(AccessDenied, nothing changed); after she successfully revokes Bob's
grant, revoking the same id again yields PatientNotFound. -/
theorem revoke_access_guards_witness :
    (revoke_access dbTwoHolders 1 10 100 "cause" 9 = .error .AccessDenied
      ∧ applyOp dbTwoHolders (.revokeOp 1 10 100 "cause") 9 = dbTwoHolders)
    ∧ revoke_access (applyOp dbTwoHolders (.revokeOp 1 10 101 "cause") 9)
        1 10 101 "again" 10 = .error .PatientNotFound :=
  ⟨revoke_access_guards.1 dbTwoHolders 1 10 100 "cause" 9
      (accAlicePrimary, pClaimed) accAlicePrimary rfl rfl rfl (Or.inl rfl),
   revoke_access_guards.2 dbTwoHolders 1 10 101 "cause" "again" 9 10
      (by decide) ⟨_, _, rfl⟩⟩

end UHR